import Mathlib

/-!
Verification of the round-based consensus skills of this repository.

The file embeds, as Lean definitions, the parts of the code that the
claims are about:

* `packages/valory/skills/liquidity_provision/rounds.py` —
  `PeriodState`, `StrategyEvaluationRound.end_block`,
  `LiquidityProvisionAbciApp.transition_function`;
* `packages/valory/skills/price_estimation_abci/behaviours.py` —
  the behaviour states, their `matching_round` declarations and the
  suspension-point traces of their `async_act` bodies.

The generic aggregation machinery (`CollectSameUntilThresholdRound`,
`is_majority_possible`, `BasePeriodState.update`, the two-thirds
threshold of the consensus parameters) lives in modules of this
repository that are not among the provided sources; those pieces are
modelled from the specification, and each such definition says so in
its doc comment.

Python runtime errors (the `enforce` failures of accessors) are
modelled as `Except.error` values.
-/

namespace LiquidityProvision

/-- Modelled from the spec: the byzantine quorum size, `floor(2N/3) + 1`
for `N` participants (`ConsensusParams.two_thirds_threshold`; the
consensus-parameter module is not among the provided sources). -/
def two_thirds_threshold (n : Nat) : Nat :=
  2 * n / 3 + 1

/-- Modelled from the spec: the per-value vote count kept by
`CollectSameUntilThresholdRound` (its module is not among the provided
sources). `c` is the collection, a map from sender address to submitted
payload value, in insertion order. -/
def countVotes {α : Type} [DecidableEq α] (c : List (String × α)) (v : α) : Nat :=
  (c.filter fun p => decide (p.2 = v)).length

/-- Modelled from the spec: the largest per-value count of the
collection (`0` when nothing has been submitted). -/
def leading_count {α : Type} [DecidableEq α] (c : List (String × α)) : Nat :=
  (c.map fun p => countVotes c p.2).foldr max 0

/-- Modelled from the spec: `threshold_reached` of
`CollectSameUntilThresholdRound` is true when the largest per-value
count has reached the two-thirds threshold. -/
def threshold_reached {α : Type} [DecidableEq α]
    (c : List (String × α)) (n : Nat) : Bool :=
  decide (two_thirds_threshold n ≤ leading_count c)

/-- Modelled from the spec: `most_voted_payload` is the submitted value
holding the largest per-value count; `none` when the collection is
empty (the source raises there, a case unreachable under
`threshold_reached`). -/
def most_voted_payload {α : Type} [DecidableEq α]
    (c : List (String × α)) : Option α :=
  (c.find? fun p => decide (leading_count c ≤ countVotes c p.2)).map Prod.snd

/-- Modelled from the spec: `is_majority_possible` is false exactly when
the number of participants who have not yet submitted plus the current
leading count is below the quorum. -/
def is_majority_possible {α : Type} [DecidableEq α]
    (c : List (String × α)) (n : Nat) : Bool :=
  decide (two_thirds_threshold n ≤ n - c.length + leading_count c)

/-- From the source (`liquidity_provision/payloads.py` is not among the
provided sources, but `StrategyEvaluationRound.end_block` compares the
strategy action against `StrategyType.GO` and the round docstring says
it schedules the `WaitRound` or the `SwapRound`): the action tag of a
strategy. -/
inductive StrategyType : Type
  | GO : StrategyType
  | WAIT : StrategyType
deriving DecidableEq

/-- The strategy dictionary carried by a `StrategyEvaluationPayload`:
an `action` entry compared against `StrategyType.GO`, plus the
remaining entries of the dictionary, abstracted as one opaque field. -/
structure Strategy : Type where
  action : StrategyType
  details : String
deriving DecidableEq

/-- The events of the liquidity provision application
(`Event` enumeration of `liquidity_provision/rounds.py`). -/
inductive Event : Type
  | DONE : Event
  | EXIT : Event
  | ROUND_TIMEOUT : Event
  | NO_MAJORITY : Event
  | WAIT : Event
  | NO_ALLOWANCE : Event
deriving DecidableEq, Fintype

/-- `PeriodState` of `liquidity_provision/rounds.py`: the replicated
period state. The two underscore fields mirror the private attributes
set by `__init__`; `participants` is held by the base class. `none`
models a Python `None`. -/
structure PeriodState : Type where
  participants : Option (Finset String)
  _participant_to_strategy : Option (List (String × Strategy))
  _most_voted_strategy : Option Strategy
deriving DecidableEq

/-- Modelled from the spec: `nb_participants` of `BasePeriodState`
(not among the provided sources) is the size of the participant set. -/
def nb_participants (s : PeriodState) : Nat :=
  match s.participants with
  | none => 0
  | some ps => ps.card

/-- The message of the `enforce` failure raised by the
`most_voted_strategy` accessor when the field is still `None`. -/
def stateNotReadyMsg : String :=
  "StateNotReady: most_voted_strategy field is None"

/-- The `most_voted_strategy` property of `PeriodState`: it enforces
that the private field is not `None` and returns it; the failure is
modelled as an `Except.error`. -/
def PeriodState.most_voted_strategy (s : PeriodState) : Except String Strategy :=
  match s._most_voted_strategy with
  | none => Except.error stateNotReadyMsg
  | some v => Except.ok v

/-- Modelled from the spec: `BasePeriodState.update` (not among the
provided sources) returns a new state with the passed keyword fields
replaced and the rest unchanged. A `none` argument means the keyword
was not passed. -/
def PeriodState.update (s : PeriodState)
    (kw_participants : Option (Finset String))
    (kw_participant_to_strategy : Option (List (String × Strategy)))
    (kw_most_voted_strategy : Option Strategy) : PeriodState :=
  { participants :=
      match kw_participants with
      | none => s.participants
      | some ps => some ps
    _participant_to_strategy :=
      match kw_participant_to_strategy with
      | none => s._participant_to_strategy
      | some c => some c
    _most_voted_strategy :=
      match kw_most_voted_strategy with
      | none => s._most_voted_strategy
      | some v => some v }

/-- `PeriodState.reset` of the source: `PeriodState(self.participants)`,
a fresh state keeping only the participant set. -/
def PeriodState.reset (s : PeriodState) : PeriodState :=
  { participants := s.participants
    _participant_to_strategy := none
    _most_voted_strategy := none }

/-- The state of a `StrategyEvaluationRound` instance: the collection
inherited from `CollectSameUntilThresholdRound` (sender address to
payload value, the `strategy` attribute of the payload) and the bound
period state. -/
structure StrategyEvaluationRound : Type where
  collection : List (String × Strategy)
  period_state : PeriodState
deriving DecidableEq

/-- `StrategyEvaluationRound.end_block` of the source, line for line:
if the threshold is reached, build the updated state from the
collection and the most voted payload, then pick the event by reading
`most_voted_strategy` from `self.period_state` — the PRE-update state —
comparing its action with `StrategyType.GO`; otherwise, if a majority
is no longer possible, return the reset state with `NO_MAJORITY`;
otherwise return no transition. A raised enforcement failure is the
`Except.error` outcome. -/
def StrategyEvaluationRound.end_block (r : StrategyEvaluationRound) :
    Except String (Option (PeriodState × Event)) :=
  if threshold_reached r.collection (nb_participants r.period_state) then
    match most_voted_payload r.collection with
    | none => Except.error "most_voted_payload: no payload collected"
    | some mv =>
      let state := r.period_state.update none (some r.collection) (some mv)
      match r.period_state.most_voted_strategy with
      | Except.error msg => Except.error msg
      | Except.ok old =>
        Except.ok (some
          (state, if old.action = StrategyType.GO then Event.DONE else Event.WAIT))
  else if ¬ is_majority_possible r.collection (nb_participants r.period_state) then
    Except.ok (some (r.period_state.reset, Event.NO_MAJORITY))
  else
    Except.ok none

/-- The round types appearing in
`LiquidityProvisionAbciApp.transition_function`, as a closed
enumeration. Constructor names follow the round class names of the
source. -/
inductive LPRoundId : Type
  | RegistrationRound : LPRoundId
  | RandomnessRound : LPRoundId
  | SelectKeeperMainRound : LPRoundId
  | DeploySafeRound : LPRoundId
  | SelectKeeperDeployRound : LPRoundId
  | ValidateSafeRound : LPRoundId
  | StrategyEvaluationRound : LPRoundId
  | WaitRound : LPRoundId
  | SwapRound : LPRoundId
  | SelectKeeperSwapRound : LPRoundId
  | ValidateSwapRound : LPRoundId
  | AllowanceCheckRound : LPRoundId
  | AddAllowanceRound : LPRoundId
  | SelectKeeperAddAllowanceRound : LPRoundId
  | ValidateAddAllowanceRound : LPRoundId
  | AddLiquidityRound : LPRoundId
  | SelectKeeperAddLiquidityRound : LPRoundId
  | ValidateAddLiquidityRound : LPRoundId
  | RemoveLiquidityRound : LPRoundId
  | SelectKeeperRemoveLiquidityRound : LPRoundId
  | ValidateRemoveLiquidityRound : LPRoundId
  | RemoveAllowanceRound : LPRoundId
  | SelectKeeperRemoveAllowanceRound : LPRoundId
  | ValidateRemoveAllowanceRound : LPRoundId
  | SwapBackRound : LPRoundId
  | SelectKeeperSwapBackRound : LPRoundId
  | ValidateSwapBackRound : LPRoundId
  | ConsensusReachedRound : LPRoundId
deriving DecidableEq, Fintype

/-- `LiquidityProvisionAbciApp.initial_round_cls` of the source. -/
def initial_round_cls : LPRoundId :=
  LPRoundId.RegistrationRound

/-- `LiquidityProvisionAbciApp.transition_function` of the source,
entry for entry; `none` for a `(round, event)` pair absent from the
declared table. -/
def transition_function : LPRoundId → Event → Option LPRoundId
  | .RegistrationRound, .DONE => some .RandomnessRound
  | .RandomnessRound, .DONE => some .SelectKeeperMainRound
  | .RandomnessRound, .ROUND_TIMEOUT => some .RegistrationRound
  | .RandomnessRound, .NO_MAJORITY => some .RegistrationRound
  | .SelectKeeperMainRound, .DONE => some .DeploySafeRound
  | .SelectKeeperMainRound, .ROUND_TIMEOUT => some .RegistrationRound
  | .SelectKeeperMainRound, .NO_MAJORITY => some .RegistrationRound
  | .DeploySafeRound, .DONE => some .ValidateSafeRound
  | .DeploySafeRound, .EXIT => some .SelectKeeperDeployRound
  | .SelectKeeperDeployRound, .DONE => some .DeploySafeRound
  | .SelectKeeperDeployRound, .ROUND_TIMEOUT => some .RegistrationRound
  | .SelectKeeperDeployRound, .NO_MAJORITY => some .RegistrationRound
  | .ValidateSafeRound, .DONE => some .StrategyEvaluationRound
  | .ValidateSafeRound, .ROUND_TIMEOUT => some .RegistrationRound
  | .ValidateSafeRound, .NO_MAJORITY => some .RegistrationRound
  | .StrategyEvaluationRound, .DONE => some .SwapRound
  | .StrategyEvaluationRound, .WAIT => some .WaitRound
  | .StrategyEvaluationRound, .ROUND_TIMEOUT => some .RegistrationRound
  | .StrategyEvaluationRound, .NO_MAJORITY => some .RegistrationRound
  | .WaitRound, .DONE => some .StrategyEvaluationRound
  | .WaitRound, .ROUND_TIMEOUT => some .RegistrationRound
  | .WaitRound, .NO_MAJORITY => some .RegistrationRound
  | .SwapRound, .DONE => some .ValidateSwapRound
  | .SwapRound, .ROUND_TIMEOUT => some .RegistrationRound
  | .SwapRound, .NO_MAJORITY => some .RegistrationRound
  | .SwapRound, .EXIT => some .SelectKeeperSwapRound
  | .SelectKeeperSwapRound, .DONE => some .SwapRound
  | .SelectKeeperSwapRound, .ROUND_TIMEOUT => some .RegistrationRound
  | .SelectKeeperSwapRound, .NO_MAJORITY => some .RegistrationRound
  | .ValidateSwapRound, .DONE => some .AllowanceCheckRound
  | .ValidateSwapRound, .ROUND_TIMEOUT => some .RegistrationRound
  | .ValidateSwapRound, .NO_MAJORITY => some .RegistrationRound
  | .AllowanceCheckRound, .DONE => some .AddLiquidityRound
  | .AllowanceCheckRound, .NO_ALLOWANCE => some .AddAllowanceRound
  | .AllowanceCheckRound, .ROUND_TIMEOUT => some .RegistrationRound
  | .AllowanceCheckRound, .NO_MAJORITY => some .RegistrationRound
  | .AddAllowanceRound, .DONE => some .ValidateAddAllowanceRound
  | .AddAllowanceRound, .ROUND_TIMEOUT => some .RegistrationRound
  | .AddAllowanceRound, .NO_MAJORITY => some .RegistrationRound
  | .AddAllowanceRound, .EXIT => some .SelectKeeperAddAllowanceRound
  | .SelectKeeperAddAllowanceRound, .DONE => some .AddAllowanceRound
  | .SelectKeeperAddAllowanceRound, .ROUND_TIMEOUT => some .RegistrationRound
  | .SelectKeeperAddAllowanceRound, .NO_MAJORITY => some .RegistrationRound
  | .ValidateAddAllowanceRound, .DONE => some .AddLiquidityRound
  | .ValidateAddAllowanceRound, .ROUND_TIMEOUT => some .RegistrationRound
  | .ValidateAddAllowanceRound, .NO_MAJORITY => some .RegistrationRound
  | .AddLiquidityRound, .DONE => some .ValidateAddLiquidityRound
  | .AddLiquidityRound, .ROUND_TIMEOUT => some .RegistrationRound
  | .AddLiquidityRound, .NO_MAJORITY => some .RegistrationRound
  | .AddLiquidityRound, .EXIT => some .SelectKeeperAddLiquidityRound
  | .SelectKeeperAddLiquidityRound, .DONE => some .AddLiquidityRound
  | .SelectKeeperAddLiquidityRound, .ROUND_TIMEOUT => some .RegistrationRound
  | .SelectKeeperAddLiquidityRound, .NO_MAJORITY => some .RegistrationRound
  | .ValidateAddLiquidityRound, .DONE => some .RemoveLiquidityRound
  | .ValidateAddLiquidityRound, .ROUND_TIMEOUT => some .RegistrationRound
  | .ValidateAddLiquidityRound, .NO_MAJORITY => some .RegistrationRound
  | .RemoveLiquidityRound, .DONE => some .ValidateRemoveLiquidityRound
  | .RemoveLiquidityRound, .ROUND_TIMEOUT => some .RegistrationRound
  | .RemoveLiquidityRound, .NO_MAJORITY => some .RegistrationRound
  | .RemoveLiquidityRound, .EXIT => some .SelectKeeperRemoveLiquidityRound
  | .SelectKeeperRemoveLiquidityRound, .DONE => some .RemoveLiquidityRound
  | .SelectKeeperRemoveLiquidityRound, .ROUND_TIMEOUT => some .RegistrationRound
  | .SelectKeeperRemoveLiquidityRound, .NO_MAJORITY => some .RegistrationRound
  | .ValidateRemoveLiquidityRound, .DONE => some .RemoveAllowanceRound
  | .ValidateRemoveLiquidityRound, .ROUND_TIMEOUT => some .RegistrationRound
  | .ValidateRemoveLiquidityRound, .NO_MAJORITY => some .RegistrationRound
  | .RemoveAllowanceRound, .DONE => some .ValidateRemoveAllowanceRound
  | .RemoveAllowanceRound, .ROUND_TIMEOUT => some .RegistrationRound
  | .RemoveAllowanceRound, .NO_MAJORITY => some .RegistrationRound
  | .RemoveAllowanceRound, .EXIT => some .SelectKeeperRemoveAllowanceRound
  | .SelectKeeperRemoveAllowanceRound, .DONE => some .SwapRound
  | .SelectKeeperRemoveAllowanceRound, .ROUND_TIMEOUT => some .RegistrationRound
  | .SelectKeeperRemoveAllowanceRound, .NO_MAJORITY => some .RegistrationRound
  | .ValidateRemoveAllowanceRound, .DONE => some .SwapBackRound
  | .ValidateRemoveAllowanceRound, .ROUND_TIMEOUT => some .RegistrationRound
  | .ValidateRemoveAllowanceRound, .NO_MAJORITY => some .RegistrationRound
  | .SwapBackRound, .DONE => some .ValidateSwapBackRound
  | .SwapBackRound, .ROUND_TIMEOUT => some .RegistrationRound
  | .SwapBackRound, .NO_MAJORITY => some .RegistrationRound
  | .SwapBackRound, .EXIT => some .SelectKeeperSwapBackRound
  | .SelectKeeperSwapBackRound, .DONE => some .SwapBackRound
  | .SelectKeeperSwapBackRound, .ROUND_TIMEOUT => some .RegistrationRound
  | .SelectKeeperSwapBackRound, .NO_MAJORITY => some .RegistrationRound
  | .ValidateSwapBackRound, .DONE => some .ConsensusReachedRound
  | .ValidateSwapBackRound, .ROUND_TIMEOUT => some .RegistrationRound
  | .ValidateSwapBackRound, .NO_MAJORITY => some .RegistrationRound
  | _, _ => none

end LiquidityProvision

namespace PriceEstimation

/-- The round types referenced as `matching_round` by the behaviour
states of `price_estimation_abci/behaviours.py`. -/
inductive RoundId : Type
  | RegistrationRound : RoundId
  | DeploySafeRound : RoundId
  | CollectObservationRound : RoundId
  | EstimateConsensusRound : RoundId
  | TxHashRound : RoundId
  | CollectSignatureRound : RoundId
  | FinalizationRound : RoundId
deriving DecidableEq, Fintype

/-- The behaviour-state classes of
`price_estimation_abci/behaviours.py`. -/
inductive BehaviourId : Type
  | InitialDelayState : BehaviourId
  | RegistrationBehaviour : BehaviourId
  | DeploySafeBehaviour : BehaviourId
  | ObserveBehaviour : BehaviourId
  | EstimateBehaviour : BehaviourId
  | TransactionHashBehaviour : BehaviourId
  | SignatureBehaviour : BehaviourId
  | FinalizeBehaviour : BehaviourId
  | EndBehaviour : BehaviourId
deriving DecidableEq, Fintype

/-- The `matching_round` class attribute of each behaviour state;
`none` when the class declares no `matching_round`
(`InitialDelayState` and `EndBehaviour` declare none). -/
def matching_round : BehaviourId → Option RoundId
  | .InitialDelayState => none
  | .RegistrationBehaviour => some .RegistrationRound
  | .DeploySafeBehaviour => some .DeploySafeRound
  | .ObserveBehaviour => some .CollectObservationRound
  | .EstimateBehaviour => some .EstimateConsensusRound
  | .TransactionHashBehaviour => some .TxHashRound
  | .SignatureBehaviour => some .CollectSignatureRound
  | .FinalizeBehaviour => some .FinalizationRound
  | .EndBehaviour => none

/-- `PriceEstimationConsensusBehaviour.all_ordered_states` of the
source, in declaration order. -/
def all_ordered_states : List BehaviourId :=
  [ .InitialDelayState
  , .RegistrationBehaviour
  , .DeploySafeBehaviour
  , .ObserveBehaviour
  , .EstimateBehaviour
  , .TransactionHashBehaviour
  , .SignatureBehaviour
  , .FinalizeBehaviour
  , .EndBehaviour ]

/-- The suspension points a behaviour body can reach (the `yield from`
sites of `async_act` and its helpers): sleeping, submitting the a2a
payload transaction, waiting for the round to end, waiting for one
external message, issuing a contract-api request, sending a raw ledger
transaction, and the dummy yield of `EndBehaviour`. -/
inductive AgentAction : Type
  | sleep_action : AgentAction
  | send_a2a_transaction : AgentAction
  | wait_until_round_end : AgentAction
  | wait_for_message : AgentAction
  | contract_api_request : AgentAction
  | raw_transaction_send : AgentAction
  | yield_unit : AgentAction
deriving DecidableEq, Fintype

/-- The suspension-point trace of one `async_act` execution of each
behaviour state, read off the source in program order. The boolean is
true when the agent address equals the designated sender address, the
one branch those bodies take (behaviours without such a branch ignore
it). Synchronous work (logging, payload construction, local calls) has
no suspension point and leaves no trace entry. -/
def async_act_trace : BehaviourId → Bool → List AgentAction
  | .InitialDelayState, _ =>
    [.sleep_action]
  | .RegistrationBehaviour, _ =>
    [.send_a2a_transaction, .wait_until_round_end]
  | .DeploySafeBehaviour, true =>
    [.contract_api_request, .raw_transaction_send,
     .send_a2a_transaction, .wait_until_round_end]
  | .DeploySafeBehaviour, false =>
    [.wait_until_round_end]
  | .ObserveBehaviour, _ =>
    [.send_a2a_transaction, .wait_until_round_end]
  | .EstimateBehaviour, _ =>
    [.send_a2a_transaction, .wait_until_round_end]
  | .TransactionHashBehaviour, true =>
    [.contract_api_request, .send_a2a_transaction, .wait_until_round_end]
  | .TransactionHashBehaviour, false =>
    [.wait_until_round_end]
  | .SignatureBehaviour, _ =>
    [.wait_for_message, .send_a2a_transaction, .wait_until_round_end]
  | .FinalizeBehaviour, true =>
    [.contract_api_request, .raw_transaction_send,
     .send_a2a_transaction, .wait_until_round_end]
  | .FinalizeBehaviour, false =>
    [.wait_until_round_end]
  | .EndBehaviour, _ =>
    [.yield_unit]

/-- The number of `send_a2a_transaction` calls in a trace. -/
def payload_submissions (t : List AgentAction) : Nat :=
  (t.filter fun a => decide (a = AgentAction.send_a2a_transaction)).length

/-- The prefix of a trace before the first suspension at
`wait_until_round_end` (the whole trace when there is none). -/
def before_round_end (t : List AgentAction) : List AgentAction :=
  t.takeWhile fun a => decide (¬ a = AgentAction.wait_until_round_end)

end PriceEstimation

namespace LiquidityProvision

/-- A concrete strategy dictionary whose action is `GO`. -/
def strategyGo : Strategy :=
  { action := StrategyType.GO, details := "enter-pool" }

/-- A concrete strategy dictionary whose action is not `GO`. -/
def strategyWait : Strategy :=
  { action := StrategyType.WAIT, details := "hold" }

/-- A second concrete non-`GO` strategy, distinct from `strategyWait`. -/
def strategyWaitAlt : Strategy :=
  { action := StrategyType.WAIT, details := "hold-alt" }

/-- A period state for three participants with no collection and no
derived value recorded yet. -/
def stateABC : PeriodState :=
  { participants := some {"a", "b", "c"}
    _participant_to_strategy := none
    _most_voted_strategy := none }

/-- A period state for four participants with nothing recorded yet. -/
def stateABCD : PeriodState :=
  { participants := some {"a", "b", "c", "d"}
    _participant_to_strategy := none
    _most_voted_strategy := none }

/-- A strategy evaluation round over `stateABC` in which all three
participants submitted the same `GO` strategy: the threshold is
reached. -/
def unanimousGoRound : StrategyEvaluationRound :=
  { collection := [("a", strategyGo), ("b", strategyGo), ("c", strategyGo)]
    period_state := stateABC }

/-- The same unanimous collection, but bound to a state whose
`most_voted_strategy` was already set (to a non-`GO` strategy) by an
earlier period. -/
def unanimousGoRoundPrimed : StrategyEvaluationRound :=
  { collection := [("a", strategyGo), ("b", strategyGo), ("c", strategyGo)]
    period_state :=
      { participants := some {"a", "b", "c"}
        _participant_to_strategy := none
        _most_voted_strategy := some strategyWait } }

/-- A strategy evaluation round over `stateABC` with an empty
collection: the threshold is not reached and a majority is still
possible. -/
def pendingRound : StrategyEvaluationRound :=
  { collection := [], period_state := stateABC }

/-- A dead-ended strategy evaluation round over `stateABCD`: three of
the four participants submitted pairwise distinct strategies, so the
leading count is one, one participant is outstanding, and the quorum of
three can no longer be reached by any value. -/
def splitRound : StrategyEvaluationRound :=
  { collection :=
      [("a", strategyGo), ("b", strategyWait), ("c", strategyWaitAlt)]
    period_state := stateABCD }

end LiquidityProvision

namespace LiquidityProvision

/-- Helper: a fold of `max` over a nonempty list of naturals is bounded
by some element of the list. -/
theorem foldr_max_attained (l : List Nat) (h : l ≠ []) :
    ∃ a ∈ l, l.foldr max 0 ≤ a := by
  induction l with
  | nil => exact absurd rfl h
  | cons x t ih =>
    by_cases ht : t = []
    · subst ht
      exact ⟨x, List.mem_cons_self x [], by simp⟩
    · rcases Nat.le_total (t.foldr max 0) x with hle | hle
      · exact ⟨x, List.mem_cons_self x t, by
          simpa using Nat.max_le.mpr ⟨Nat.le_refl x, hle⟩⟩
      · obtain ⟨a, ha, hfa⟩ := ih ht
        exact ⟨a, List.mem_cons_of_mem x ha, by
          simpa using Nat.max_le.mpr ⟨Nat.le_trans hle hfa, hfa⟩⟩

/-- Helper: in a nonempty collection some submitted value attains the
leading count. -/
theorem exists_leading_vote {α : Type} [DecidableEq α]
    (c : List (String × α)) (h : c ≠ []) :
    ∃ p ∈ c, leading_count c ≤ countVotes c p.2 := by
  have hmap : (c.map fun p => countVotes c p.2) ≠ [] := by
    simpa using h
  obtain ⟨a, ha, hle⟩ := foldr_max_attained _ hmap
  obtain ⟨p, hp, rfl⟩ := List.mem_map.mp ha
  exact ⟨p, hp, hle⟩

/-- Helper: once the threshold is reached the collection holds a most
voted payload. -/
theorem most_voted_payload_eq_some {α : Type} [DecidableEq α]
    {c : List (String × α)} {n : Nat}
    (h : threshold_reached c n = true) :
    ∃ mv, most_voted_payload c = some mv := by
  have ht : two_thirds_threshold n ≤ leading_count c := by
    simpa [threshold_reached] using h
  have hne : c ≠ [] := by
    intro hc
    rw [hc] at ht
    have h0 : leading_count ([] : List (String × α)) = 0 := rfl
    rw [h0] at ht
    unfold two_thirds_threshold at ht
    omega
  obtain ⟨p, hp, hle⟩ := exists_leading_vote c hne
  have hfind :
      (c.find? fun q => decide (leading_count c ≤ countVotes c q.2)).isSome
        = true := by
    rw [List.find?_isSome]
    exact ⟨p, hp, by simpa using hle⟩
  obtain ⟨q, hq⟩ := Option.isSome_iff_exists.mp hfind
  exact ⟨q.2, by simp [most_voted_payload, hq]⟩

/-- Claim C1, counterexample: with three participants all submitting
the same `GO` strategy over a state whose `most_voted_strategy` was
never set, the threshold is reached, yet `end_block` does not return
the updated state with `DONE` — it fails with the access-before-ready
error, because the event is picked by reading `most_voted_strategy`
from the pre-update state. -/
theorem strategy_evaluation_threshold_not_done_cex :
    threshold_reached unanimousGoRound.collection
        (nb_participants unanimousGoRound.period_state) = true ∧
    StrategyEvaluationRound.end_block unanimousGoRound
        = Except.error stateNotReadyMsg ∧
    StrategyEvaluationRound.end_block unanimousGoRound
        ≠ Except.ok (some
            (stateABC.update none (some unanimousGoRound.collection)
              (some strategyGo), Event.DONE)) := by
  refine ⟨by decide, by rfl, ?_⟩
  intro h
  rw [show StrategyEvaluationRound.end_block unanimousGoRound
        = Except.error stateNotReadyMsg from rfl] at h
  exact Except.noConfusion h

/-- Claim C1 (amended): whenever the threshold is reached, `end_block`
has a most voted payload `mv` and builds the updated state carrying the
collection and `mv`; the event, however, is decided from the PRE-update
state: if its `most_voted_strategy` is unset the call fails with the
access-before-ready error, and if it is set the event is `DONE` when
that stored action is `GO` and `WAIT` otherwise. Moreover, when every
value has fewer than quorum-many matching submissions, the threshold is
never reported reached. -/
theorem strategy_evaluation_end_block_threshold :
    (∀ r : StrategyEvaluationRound,
      threshold_reached r.collection (nb_participants r.period_state) = true →
      ∃ mv, most_voted_payload r.collection = some mv ∧
        (r.period_state._most_voted_strategy = none →
          StrategyEvaluationRound.end_block r
            = Except.error stateNotReadyMsg) ∧
        (∀ old, r.period_state._most_voted_strategy = some old →
          StrategyEvaluationRound.end_block r
            = Except.ok (some
                (r.period_state.update none (some r.collection) (some mv),
                 if old.action = StrategyType.GO then Event.DONE
                 else Event.WAIT)))) ∧
    (∀ (c : List (String × Strategy)) (n : Nat),
      (∀ p ∈ c, countVotes c p.2 < two_thirds_threshold n) →
      threshold_reached c n = false) := by
  constructor
  · intro r h
    obtain ⟨mv, hmv⟩ := most_voted_payload_eq_some h
    refine ⟨mv, hmv, ?_, ?_⟩
    · intro hnone
      simp [StrategyEvaluationRound.end_block, h, hmv,
            PeriodState.most_voted_strategy, hnone]
    · intro old hold
      simp [StrategyEvaluationRound.end_block, h, hmv,
            PeriodState.most_voted_strategy, hold]
  · intro c n hall
    by_cases hc : c = []
    · subst hc
      have h0 : leading_count ([] : List (String × Strategy)) = 0 := rfl
      simp only [threshold_reached, h0, decide_eq_false_iff_not]
      unfold two_thirds_threshold
      omega
    · obtain ⟨p, hp, hle⟩ := exists_leading_vote c hc
      have hlt := hall p hp
      simp only [threshold_reached, decide_eq_false_iff_not]
      omega

/-- Claim C1, witness: the amended statement applied to the unanimous
`GO` collection over a state whose `most_voted_strategy` already holds
a non-`GO` strategy, and to the empty collection for the below-quorum
part. -/
theorem strategy_evaluation_end_block_threshold_witness :
    (∃ mv, most_voted_payload unanimousGoRoundPrimed.collection = some mv ∧
      (unanimousGoRoundPrimed.period_state._most_voted_strategy = none →
        StrategyEvaluationRound.end_block unanimousGoRoundPrimed
          = Except.error stateNotReadyMsg) ∧
      (∀ old,
        unanimousGoRoundPrimed.period_state._most_voted_strategy = some old →
        StrategyEvaluationRound.end_block unanimousGoRoundPrimed
          = Except.ok (some
              (unanimousGoRoundPrimed.period_state.update none
                (some unanimousGoRoundPrimed.collection) (some mv),
               if old.action = StrategyType.GO then Event.DONE
               else Event.WAIT)))) ∧
    threshold_reached ([] : List (String × Strategy)) 3 = false :=
  ⟨strategy_evaluation_end_block_threshold.1 unanimousGoRoundPrimed (by decide),
   strategy_evaluation_end_block_threshold.2 [] 3 (by simp)⟩

end LiquidityProvision

namespace LiquidityProvision

/-- Claim C2: when the threshold has not been reached and the count of
participants who have not yet submitted plus the current leading count
is below the quorum, `end_block` returns the `NO_MAJORITY` event with
the reset period state, which retains the participant set and discards
the collection and the derived value. -/
theorem strategy_evaluation_no_majority_reset :
    ∀ r : StrategyEvaluationRound,
      threshold_reached r.collection (nb_participants r.period_state)
          = false →
      nb_participants r.period_state - r.collection.length
            + leading_count r.collection
          < two_thirds_threshold (nb_participants r.period_state) →
      StrategyEvaluationRound.end_block r
            = Except.ok (some (r.period_state.reset, Event.NO_MAJORITY)) ∧
        (r.period_state.reset).participants = r.period_state.participants ∧
        (r.period_state.reset)._participant_to_strategy = none ∧
        (r.period_state.reset)._most_voted_strategy = none := by
  intro r h1 h2
  have hmaj : is_majority_possible r.collection
      (nb_participants r.period_state) = false := by
    simp only [is_majority_possible, decide_eq_false_iff_not]
    omega
  exact ⟨by simp [StrategyEvaluationRound.end_block, h1, hmaj], rfl, rfl, rfl⟩

/-- Claim C2, witness: the dead-ended four-participant round with three
pairwise distinct submissions reports `NO_MAJORITY` with the reset
state. -/
theorem strategy_evaluation_no_majority_reset_witness :
    StrategyEvaluationRound.end_block splitRound
      = Except.ok (some (splitRound.period_state.reset,
          Event.NO_MAJORITY)) :=
  (strategy_evaluation_no_majority_reset splitRound
    (by decide) (by decide)).1

/-- Claim C3: the quorum equals `floor(2N/3) + 1`, and two disjoint
subsets of a participant set of size at least one can never both reach
the quorum, for any pair of values they may be backing. -/
theorem two_thirds_quorum_no_disjoint_quorums
    (N : Nat) (P A B : Finset String)
    (_hN : 1 ≤ N) (hP : P.card = N) (hA : A ⊆ P) (hB : B ⊆ P) :
    two_thirds_threshold N = 2 * N / 3 + 1 ∧
    ¬ (Disjoint A B ∧ two_thirds_threshold N ≤ A.card ∧
       two_thirds_threshold N ≤ B.card) := by
  refine ⟨rfl, ?_⟩
  rintro ⟨hdisj, hAc, hBc⟩
  have hcard : A.card + B.card ≤ P.card := by
    calc A.card + B.card = (A ∪ B).card :=
          (Finset.card_union_of_disjoint hdisj).symm
      _ ≤ P.card := Finset.card_le_card (Finset.union_subset hA hB)
  rw [hP] at hcard
  unfold two_thirds_threshold at hAc hBc
  omega

/-- Claim C3, witness: three participants, the full set against the
empty set. -/
theorem two_thirds_quorum_no_disjoint_quorums_witness :
    two_thirds_threshold 3 = 2 * 3 / 3 + 1 ∧
    ¬ (Disjoint ({"a", "b", "c"} : Finset String) (∅ : Finset String) ∧
       two_thirds_threshold 3 ≤ ({"a", "b", "c"} : Finset String).card ∧
       two_thirds_threshold 3 ≤ (∅ : Finset String).card) :=
  two_thirds_quorum_no_disjoint_quorums 3 {"a", "b", "c"}
    {"a", "b", "c"} ∅ (by decide) (by decide) (by decide) (by decide)

/-- Claim C4: reading `most_voted_strategy` from a state where the
field was never set fails with the access-before-ready error rather
than returning any default, and once the field holds a value — in
particular right after an `update` that set it — the accessor returns
exactly that value. -/
theorem most_voted_strategy_access_before_ready :
    ∀ s : PeriodState,
      (s._most_voted_strategy = none →
        s.most_voted_strategy = Except.error stateNotReadyMsg) ∧
      (∀ v, s._most_voted_strategy = some v →
        s.most_voted_strategy = Except.ok v) ∧
      (∀ kp kc v, (s.update kp kc (some v)).most_voted_strategy
        = Except.ok v) := by
  intro s
  refine ⟨fun h => ?_, fun v h => ?_, fun kp kc v => ?_⟩
  · simp [PeriodState.most_voted_strategy, h]
  · simp [PeriodState.most_voted_strategy, h]
  · simp [PeriodState.most_voted_strategy, PeriodState.update]

/-- Claim C4, witness: the fresh three-participant state errors; after
an `update` setting the field, the accessor returns the stored
strategy. -/
theorem most_voted_strategy_access_before_ready_witness :
    stateABC.most_voted_strategy = Except.error stateNotReadyMsg ∧
    (stateABC.update none none (some strategyGo)).most_voted_strategy
      = Except.ok strategyGo :=
  ⟨(most_voted_strategy_access_before_ready stateABC).1 rfl,
   (most_voted_strategy_access_before_ready stateABC).2.2
     none none strategyGo⟩

/-- Claim C5: `update` is a functional update — updating the collection
and then the derived value exposes both and leaves the participants
unchanged — and `reset` on the result keeps only the participant set,
with the collection and the derived value unset. -/
theorem period_state_update_reset_roundtrip :
    ∀ (s : PeriodState) (c : List (String × Strategy)) (v : Strategy),
      ((s.update none (some c) none).update none none
          (some v))._participant_to_strategy = some c ∧
      ((s.update none (some c) none).update none none
          (some v))._most_voted_strategy = some v ∧
      ((s.update none (some c) none).update none none
          (some v)).participants = s.participants ∧
      (((s.update none (some c) none).update none none
          (some v)).reset).participants = s.participants ∧
      (((s.update none (some c) none).update none none
          (some v)).reset)._participant_to_strategy = none ∧
      (((s.update none (some c) none).update none none
          (some v)).reset)._most_voted_strategy = none :=
  fun _ _ _ => ⟨rfl, rfl, rfl, rfl, rfl, rfl⟩

/-- Claim C6: while the threshold is not reached and a majority is
still possible, `end_block` reports no transition. -/
theorem strategy_evaluation_end_block_pending :
    ∀ r : StrategyEvaluationRound,
      threshold_reached r.collection (nb_participants r.period_state)
          = false →
      is_majority_possible r.collection (nb_participants r.period_state)
          = true →
      StrategyEvaluationRound.end_block r = Except.ok none := by
  intro r h1 h2
  simp [StrategyEvaluationRound.end_block, h1, h2]

/-- Claim C6, witness: the empty collection over the three-participant
state is still pending, and `end_block` reports no transition. -/
theorem strategy_evaluation_end_block_pending_witness :
    StrategyEvaluationRound.end_block pendingRound = Except.ok none :=
  strategy_evaluation_end_block_pending pendingRound (by decide) (by decide)

end LiquidityProvision

namespace LiquidityProvision

/-- Claim C7: in the declared transition function,
`ConsensusReachedRound` is the unique terminal round: it is a
transition target with no outgoing transitions, every other round that
appears as a target has outgoing transitions of its own, and
`RegistrationRound` is the declared initial round. -/
theorem consensus_reached_unique_terminal :
    initial_round_cls = LPRoundId.RegistrationRound ∧
    (∃ src e, transition_function src e
        = some LPRoundId.ConsensusReachedRound) ∧
    (∀ e, transition_function LPRoundId.ConsensusReachedRound e = none) ∧
    (∀ r : LPRoundId, r ≠ LPRoundId.ConsensusReachedRound →
      ((∃ src e, transition_function src e = some r) →
        ∃ e, (transition_function r e).isSome)) ∧
    (∀ r : LPRoundId, (∀ e, transition_function r e = none) →
      r = LPRoundId.ConsensusReachedRound) := by
  decide

/-- Claim C7, witness: the terminal round has no `DONE` successor. -/
theorem consensus_reached_unique_terminal_witness :
    transition_function LPRoundId.ConsensusReachedRound Event.DONE
      = none :=
  consensus_reached_unique_terminal.2.2.1 Event.DONE

/-- Claim C10: every declared `ROUND_TIMEOUT` transition and every
declared `NO_MAJORITY` transition targets `RegistrationRound`, and
`RegistrationRound` itself declares only a `DONE` transition. -/
theorem fallback_transitions_target_registration :
    (∀ r tgt, transition_function r Event.ROUND_TIMEOUT = some tgt →
      tgt = LPRoundId.RegistrationRound) ∧
    (∀ r tgt, transition_function r Event.NO_MAJORITY = some tgt →
      tgt = LPRoundId.RegistrationRound) ∧
    transition_function LPRoundId.RegistrationRound Event.DONE
      = some LPRoundId.RandomnessRound ∧
    (∀ e, e ≠ Event.DONE →
      transition_function LPRoundId.RegistrationRound e = none) := by
  decide

/-- Claim C10, witness: `RegistrationRound` has no timeout fallback of
its own. -/
theorem fallback_transitions_target_registration_witness :
    transition_function LPRoundId.RegistrationRound Event.ROUND_TIMEOUT
      = none :=
  fallback_transitions_target_registration.2.2.2 Event.ROUND_TIMEOUT
    (by decide)

end LiquidityProvision

namespace PriceEstimation

/-- Claim C8, counterexample: `InitialDelayState` is in the ordered
behaviour list yet declares no `matching_round`, so not every behaviour
state is bound to a round type. -/
theorem behaviour_matching_round_cex :
    BehaviourId.InitialDelayState ∈ all_ordered_states ∧
    matching_round BehaviourId.InitialDelayState = none := by
  decide

/-- Claim C8 (amended): in the ordered behaviour list, exactly the two
bookend states `InitialDelayState` and `EndBehaviour` declare no
`matching_round`; every other behaviour state declares one, and no two
behaviour states share the same declared `matching_round`. -/
theorem behaviour_matching_round_amended :
    (∀ b ∈ all_ordered_states,
      (matching_round b = none ↔
        (b = BehaviourId.InitialDelayState ∨
         b = BehaviourId.EndBehaviour))) ∧
    (∀ b1 ∈ all_ordered_states, ∀ b2 ∈ all_ordered_states,
      ∀ r : RoundId,
        matching_round b1 = some r → matching_round b2 = some r →
        b1 = b2) := by
  decide

/-- Claim C8, witness: `EndBehaviour` declares no round, and the two
behaviours bound to `RegistrationRound` coincide. -/
theorem behaviour_matching_round_amended_witness :
    matching_round BehaviourId.EndBehaviour = none ∧
    BehaviourId.RegistrationBehaviour = BehaviourId.RegistrationBehaviour :=
  ⟨(behaviour_matching_round_amended.1 BehaviourId.EndBehaviour
      (by decide)).mpr (Or.inr rfl),
   behaviour_matching_round_amended.2 BehaviourId.RegistrationBehaviour
     (by decide) BehaviourId.RegistrationBehaviour (by decide)
     RoundId.RegistrationRound (by decide) (by decide)⟩

/-- Claim C9: in every behaviour state, one execution of `async_act`
reaches `send_a2a_transaction` at most once before the suspension at
`wait_until_round_end`, and at most once in the whole execution,
whether or not the agent is the designated sender. -/
theorem single_payload_submission_per_round :
    ∀ (b : BehaviourId) (s : Bool),
      payload_submissions (before_round_end (async_act_trace b s)) ≤ 1 ∧
      payload_submissions (async_act_trace b s) ≤ 1 := by
  decide

end PriceEstimation
